import Mathlib

/-
Verification of the wind-turbine power-curve model in src/main.py
(Project01_46W38). Floats are modelled as rationals (ℚ); a Python
`raise ValueError(msg)` is modelled as `Except.error msg`. Python helper
names start with an underscore (`_clamp01`, ...); here the underscore is
dropped.
-/

namespace PowerCurve

/-- Clamp value to the [0, 1] interval; embeds `_clamp01` from src/main.py. -/
def clamp01 (x : ℚ) : ℚ :=
  if x < 0 then 0
  else if x > 1 then 1
  else x

/-- Validate that v_in < v_rated < v_out; embeds `_validate_thresholds`. -/
def validate_thresholds (v_in v_rated v_out : ℚ) : Except String Unit :=
  if v_in < v_rated ∧ v_rated < v_out then Except.ok ()
  else Except.error "Expected thresholds to satisfy v_in < v_rated < v_out."

/-- Validate the interpolation option; embeds `_validate_interpolation`. -/
def validate_interpolation (name : String) : Except String Unit :=
  if name = "linear" ∨ name = "cubic" then Except.ok ()
  else Except.error "Interpolation must be either linear or cubic."

/-- Ensure rated power is strictly positive; embeds `_validate_prated`. -/
def validate_prated (prated : ℚ) : Except String Unit :=
  if prated ≤ 0 then Except.error "prated must be positive."
  else Except.ok ()

/-- Weighting g(v) for v in [v_in, v_rated); embeds `_interp_weight`.
Any option other than "linear" takes the cubic branch, exactly as the
Python code does after validation. -/
def interp_weight (v v_in v_rated : ℚ) (interpolation : String) : Except String ℚ :=
  if interpolation = "linear" then
    let denom := v_rated - v_in
    if denom ≤ 0 then
      Except.error "Invalid thresholds: v_rated must be greater than v_in."
    else Except.ok (clamp01 ((v - v_in) / denom))
  else
    if v_rated ≤ 0 then
      Except.error "v_rated must be positive for cubic interpolation."
    else Except.ok (clamp01 ((v ^ 3) / (v_rated ^ 3)))

/-- Piecewise power model; embeds `compute_power`. Validation runs first
(prated, then thresholds, then interpolation), then region dispatch. -/
def compute_power (v prated v_in v_rated v_out : ℚ)
    (interpolation : String) : Except String ℚ :=
  match validate_prated prated with
  | Except.error e => Except.error e
  | Except.ok _ =>
    match validate_thresholds v_in v_rated v_out with
    | Except.error e => Except.error e
    | Except.ok _ =>
      match validate_interpolation interpolation with
      | Except.error e => Except.error e
      | Except.ok _ =>
        if v < v_in ∨ v ≥ v_out then Except.ok 0
        else if v ≥ v_rated then Except.ok prated
        else
          match interp_weight v v_in v_rated interpolation with
          | Except.error e => Except.error e
          | Except.ok g => Except.ok (g * prated)

/-- Exception-propagating map, as performed by the list comprehension in
`compute_power_series`: the first raised error aborts the whole list. -/
def mapExcept (f : ℚ → Except String ℚ) : List ℚ → Except String (List ℚ)
  | [] => Except.ok []
  | v :: rest =>
    match f v with
    | Except.error e => Except.error e
    | Except.ok p =>
      match mapExcept f rest with
      | Except.error e => Except.error e
      | Except.ok ps => Except.ok (p :: ps)

/-- Embeds `compute_power_series`: validate the config once, then map
`compute_power` over the speeds, preserving order. -/
def compute_power_series (speeds : List ℚ) (prated v_in v_rated v_out : ℚ)
    (interpolation : String) : Except String (List ℚ) :=
  match validate_prated prated with
  | Except.error e => Except.error e
  | Except.ok _ =>
    match validate_thresholds v_in v_rated v_out with
    | Except.error e => Except.error e
    | Except.ok _ =>
      match validate_interpolation interpolation with
      | Except.error e => Except.error e
      | Except.ok _ =>
        mapExcept (fun v => compute_power v prated v_in v_rated v_out interpolation) speeds

/-- A configuration passes validation: positive rated power, ordered
thresholds, and a recognized interpolation option. -/
def validConfig (prated v_in v_rated v_out : ℚ) (interpolation : String) : Prop :=
  0 < prated ∧ v_in < v_rated ∧ v_rated < v_out ∧
    (interpolation = "linear" ∨ interpolation = "cubic")

instance (prated v_in v_rated v_out : ℚ) (interpolation : String) :
    Decidable (validConfig prated v_in v_rated v_out interpolation) := by
  unfold validConfig
  infer_instance

/-- Whether an evaluation raised (Python: the call ended in ValueError). -/
def isError : Except String ℚ → Bool
  | Except.error _ => true
  | Except.ok _ => false

theorem cubic_ne_linear : ("cubic" : String) ≠ "linear" := by decide

theorem clamp01_nonneg (x : ℚ) : 0 ≤ clamp01 x := by
  unfold clamp01
  split_ifs <;> linarith

theorem clamp01_le_one (x : ℚ) : clamp01 x ≤ 1 := by
  unfold clamp01
  split_ifs <;> linarith

theorem clamp01_mono (x y : ℚ) (h : x ≤ y) : clamp01 x ≤ clamp01 y := by
  unfold clamp01
  split_ifs <;> linarith

theorem clamp01_of_nonpos (x : ℚ) (h : x ≤ 0) : clamp01 x = 0 := by
  unfold clamp01
  split_ifs <;> linarith

theorem clamp01_mul_bounds (x prated : ℚ) (hp : 0 < prated) :
    0 ≤ clamp01 x * prated ∧ clamp01 x * prated ≤ prated := by
  constructor
  · exact mul_nonneg (clamp01_nonneg x) hp.le
  · calc clamp01 x * prated ≤ 1 * prated :=
        mul_le_mul_of_nonneg_right (clamp01_le_one x) hp.le
    _ = prated := one_mul prated

theorem interp_weight_linear_eq (v v_in v_rated : ℚ) (h : v_in < v_rated) :
    interp_weight v v_in v_rated "linear" =
      Except.ok (clamp01 ((v - v_in) / (v_rated - v_in))) := by
  have hd : ¬ (v_rated - v_in ≤ 0) := by linarith
  simp [interp_weight, hd]

theorem interp_weight_cubic_pos (v v_in v_rated : ℚ) (h : 0 < v_rated) :
    interp_weight v v_in v_rated "cubic" =
      Except.ok (clamp01 ((v ^ 3) / (v_rated ^ 3))) := by
  simp [interp_weight, not_le.mpr h]

theorem interp_weight_cubic_err (v v_in v_rated : ℚ) (h : v_rated ≤ 0) :
    interp_weight v v_in v_rated "cubic" =
      Except.error "v_rated must be positive for cubic interpolation." := by
  simp [interp_weight, h]

theorem compute_power_eq_of_valid (v prated v_in v_rated v_out : ℚ)
    (interpolation : String)
    (hvalid : validConfig prated v_in v_rated v_out interpolation) :
    compute_power v prated v_in v_rated v_out interpolation =
      if v < v_in ∨ v ≥ v_out then Except.ok 0
      else if v ≥ v_rated then Except.ok prated
      else
        match interp_weight v v_in v_rated interpolation with
        | Except.error e => Except.error e
        | Except.ok g => Except.ok (g * prated) := by
  obtain ⟨hp, h1, h2, hmode⟩ := hvalid
  simp [compute_power, validate_prated, validate_thresholds, validate_interpolation,
    not_le.mpr hp, h1, h2, hmode]

theorem isError_of_invalid (v prated v_in v_rated v_out : ℚ) (interpolation : String)
    (h : ¬ validConfig prated v_in v_rated v_out interpolation) :
    isError (compute_power v prated v_in v_rated v_out interpolation) = true := by
  by_cases hp : prated ≤ 0
  · simp [compute_power, validate_prated, hp, isError]
  · by_cases ht : v_in < v_rated ∧ v_rated < v_out
    · by_cases hm : interpolation = "linear" ∨ interpolation = "cubic"
      · exact absurd ⟨not_le.mp hp, ht.1, ht.2, hm⟩ h
      · simp [compute_power, validate_prated, validate_thresholds, validate_interpolation,
          hp, ht, hm, isError]
    · simp [compute_power, validate_prated, validate_thresholds, hp, ht, isError]

theorem compute_power_ok_form (v prated v_in v_rated v_out : ℚ) (interpolation : String)
    (hvalid : validConfig prated v_in v_rated v_out interpolation)
    (hcub : interpolation = "cubic" → v_rated ≤ 0 → ¬ (v_in ≤ v ∧ v < v_rated)) :
    ∃ r, compute_power v prated v_in v_rated v_out interpolation = Except.ok r := by
  rw [compute_power_eq_of_valid v prated v_in v_rated v_out interpolation hvalid]
  obtain ⟨hp, h1, h2, hmode⟩ := hvalid
  by_cases h4 : v < v_in ∨ v ≥ v_out
  · exact ⟨0, by rw [if_pos h4]⟩
  · rw [if_neg h4]
    by_cases h5 : v ≥ v_rated
    · exact ⟨prated, by rw [if_pos h5]⟩
    · rw [if_neg h5]
      push_neg at h4 h5
      rcases hmode with hm | hm
      · subst hm
        rw [interp_weight_linear_eq v v_in v_rated h1]
        exact ⟨clamp01 ((v - v_in) / (v_rated - v_in)) * prated, rfl⟩
      · subst hm
        rcases lt_or_le 0 v_rated with hvr | hvr
        · rw [interp_weight_cubic_pos v v_in v_rated hvr]
          exact ⟨clamp01 ((v ^ 3) / (v_rated ^ 3)) * prated, rfl⟩
        · exact absurd ⟨h4.1, h5⟩ (hcub rfl hvr)

theorem compute_power_cubic_ramp_err (v prated v_in v_rated v_out : ℚ)
    (hp : 0 < prated) (h1 : v_in < v_rated) (h2 : v_rated < v_out)
    (hvr : v_rated ≤ 0) (hge : v_in ≤ v) (hlt : v < v_rated) :
    compute_power v prated v_in v_rated v_out "cubic" =
      Except.error "v_rated must be positive for cubic interpolation." := by
  rw [compute_power_eq_of_valid v prated v_in v_rated v_out "cubic"
    ⟨hp, h1, h2, Or.inr rfl⟩]
  have hout : ¬ (v < v_in ∨ v ≥ v_out) := by
    push_neg
    exact ⟨hge, by linarith⟩
  rw [if_neg hout, if_neg (not_le.mpr hlt)]
  rw [interp_weight_cubic_err v v_in v_rated hvr]

theorem cube_le_cube (a b : ℚ) (h : a ≤ b) : a ^ 3 ≤ b ^ 3 := by
  nlinarith [sq_nonneg (a + b), sq_nonneg (a - b), sq_nonneg a, sq_nonneg b]

theorem mapExcept_ok_spec (f : ℚ → Except String ℚ) (speeds : List ℚ) :
    ∀ l, mapExcept f speeds = Except.ok l →
      l.length = speeds.length ∧
      ∀ i (hi : i < l.length) (hs : i < speeds.length),
        f speeds[i] = Except.ok l[i] := by
  induction speeds with
  | nil =>
    intro l h
    simp only [mapExcept, Except.ok.injEq] at h
    subst h
    simp
  | cons v rest ih =>
    intro l h
    simp only [mapExcept] at h
    cases hfv : f v with
    | error e => rw [hfv] at h; cases h
    | ok p =>
      rw [hfv] at h
      cases hrest : mapExcept f rest with
      | error e => rw [hrest] at h; cases h
      | ok ps =>
        rw [hrest] at h
        simp only [Except.ok.injEq] at h
        subst h
        obtain ⟨hlen, hpt⟩ := ih ps hrest
        refine ⟨by simpa using hlen, ?_⟩
        intro i hi hs
        cases i with
        | zero => simpa using hfv
        | succ j =>
          simp only [List.getElem_cons_succ]
          exact hpt j (by simpa using hi) (by simpa using hs)

/-- C1: for every configuration passing validation (prated > 0,
v_in < v_rated < v_out, recognized interpolation mode) and every wind
speed v with v < v_in or v ≥ v_out, compute_power returns exactly 0. -/
theorem C1_zero_outside_operating_range (v prated v_in v_rated v_out : ℚ)
    (interpolation : String)
    (hvalid : validConfig prated v_in v_rated v_out interpolation)
    (hv : v < v_in ∨ v ≥ v_out) :
    compute_power v prated v_in v_rated v_out interpolation = Except.ok 0 := by
  rw [compute_power_eq_of_valid v prated v_in v_rated v_out interpolation hvalid,
    if_pos hv]

theorem C1_witness :
    compute_power 30 15 3 11 25 "linear" = Except.ok 0 :=
  C1_zero_outside_operating_range 30 15 3 11 25 "linear"
    (by constructor <;> norm_num) (by norm_num)

/-- C2: for every configuration passing validation and every wind speed v
with v_rated ≤ v < v_out, compute_power returns exactly prated, for both
interpolation modes; in particular compute_power at v = v_rated returns
prated (the boundary belongs to the plateau, not the ramp). -/
theorem C2_plateau_rated_power (v prated v_in v_rated v_out : ℚ)
    (interpolation : String)
    (hvalid : validConfig prated v_in v_rated v_out interpolation)
    (h1 : v_rated ≤ v) (h2 : v < v_out) :
    compute_power v prated v_in v_rated v_out interpolation = Except.ok prated := by
  have hord := hvalid.2.1
  rw [compute_power_eq_of_valid v prated v_in v_rated v_out interpolation hvalid]
  have hout : ¬ (v < v_in ∨ v ≥ v_out) := by
    push_neg
    exact ⟨by linarith, h2⟩
  rw [if_neg hout, if_pos (show v ≥ v_rated from h1)]

theorem C2_witness :
    compute_power 11 15 3 11 25 "cubic" = Except.ok 15 :=
  C2_plateau_rated_power 11 15 3 11 25 "cubic"
    (by constructor <;> norm_num) (by norm_num) (by norm_num)

/-- C3: for every configuration passing validation and every wind speed v,
whenever compute_power returns a value r (rather than raising), that value
satisfies 0 ≤ r ≤ prated. -/
theorem C3_result_bounds (v prated v_in v_rated v_out : ℚ)
    (interpolation : String) (r : ℚ)
    (hvalid : validConfig prated v_in v_rated v_out interpolation)
    (h : compute_power v prated v_in v_rated v_out interpolation = Except.ok r) :
    0 ≤ r ∧ r ≤ prated := by
  obtain ⟨hp, h1, h2, hmode⟩ := hvalid
  rw [compute_power_eq_of_valid v prated v_in v_rated v_out interpolation
    ⟨hp, h1, h2, hmode⟩] at h
  by_cases h4 : v < v_in ∨ v ≥ v_out
  · rw [if_pos h4] at h
    obtain rfl : (0 : ℚ) = r := by simpa using h
    exact ⟨le_refl 0, hp.le⟩
  · rw [if_neg h4] at h
    by_cases h5 : v ≥ v_rated
    · rw [if_pos h5] at h
      obtain rfl : prated = r := by simpa using h
      exact ⟨hp.le, le_refl prated⟩
    · rw [if_neg h5] at h
      rcases hmode with hm | hm
      · subst hm
        rw [interp_weight_linear_eq v v_in v_rated h1] at h
        obtain rfl : clamp01 ((v - v_in) / (v_rated - v_in)) * prated = r := by
          simpa using h
        exact clamp01_mul_bounds _ prated hp
      · subst hm
        rcases lt_or_le 0 v_rated with hvr | hvr
        · rw [interp_weight_cubic_pos v v_in v_rated hvr] at h
          obtain rfl : clamp01 ((v ^ 3) / (v_rated ^ 3)) * prated = r := by
            simpa using h
          exact clamp01_mul_bounds _ prated hp
        · rw [interp_weight_cubic_err v v_in v_rated hvr] at h
          cases h

theorem C3_witness : (0 : ℚ) ≤ 15/2 ∧ (15/2 : ℚ) ≤ 15 :=
  C3_result_bounds 7 15 3 11 25 "linear" (15/2)
    (by constructor <;> norm_num)
    (by norm_num [compute_power, validate_prated, validate_thresholds,
      validate_interpolation, interp_weight, clamp01])

/-- C4: for every configuration passing validation and both interpolation
modes, compute_power is monotonically non-decreasing on the ramp region:
for v_in ≤ v1 ≤ v2 < v_rated, the returned values satisfy r1 ≤ r2. -/
theorem C4_ramp_monotone (v1 v2 prated v_in v_rated v_out : ℚ)
    (interpolation : String) (r1 r2 : ℚ)
    (hvalid : validConfig prated v_in v_rated v_out interpolation)
    (hv1 : v_in ≤ v1) (h12 : v1 ≤ v2) (hv2 : v2 < v_rated)
    (e1 : compute_power v1 prated v_in v_rated v_out interpolation = Except.ok r1)
    (e2 : compute_power v2 prated v_in v_rated v_out interpolation = Except.ok r2) :
    r1 ≤ r2 := by
  obtain ⟨hp, h1, h2, hmode⟩ := hvalid
  have hlt1 : v1 < v_rated := lt_of_le_of_lt h12 hv2
  have hout1 : ¬ (v1 < v_in ∨ v1 ≥ v_out) := by
    push_neg
    exact ⟨hv1, by linarith⟩
  have hout2 : ¬ (v2 < v_in ∨ v2 ≥ v_out) := by
    push_neg
    exact ⟨by linarith, by linarith⟩
  rw [compute_power_eq_of_valid v1 prated v_in v_rated v_out interpolation
    ⟨hp, h1, h2, hmode⟩, if_neg hout1, if_neg (not_le.mpr hlt1)] at e1
  rw [compute_power_eq_of_valid v2 prated v_in v_rated v_out interpolation
    ⟨hp, h1, h2, hmode⟩, if_neg hout2, if_neg (not_le.mpr hv2)] at e2
  rcases hmode with hm | hm
  · subst hm
    rw [interp_weight_linear_eq v1 v_in v_rated h1] at e1
    rw [interp_weight_linear_eq v2 v_in v_rated h1] at e2
    obtain rfl : clamp01 ((v1 - v_in) / (v_rated - v_in)) * prated = r1 := by
      simpa using e1
    obtain rfl : clamp01 ((v2 - v_in) / (v_rated - v_in)) * prated = r2 := by
      simpa using e2
    have hd : (0 : ℚ) < v_rated - v_in := by linarith
    apply mul_le_mul_of_nonneg_right _ hp.le
    apply clamp01_mono
    exact (div_le_div_iff_of_pos_right hd).mpr (by linarith)
  · subst hm
    rcases lt_or_le 0 v_rated with hvr | hvr
    · rw [interp_weight_cubic_pos v1 v_in v_rated hvr] at e1
      rw [interp_weight_cubic_pos v2 v_in v_rated hvr] at e2
      obtain rfl : clamp01 ((v1 ^ 3) / (v_rated ^ 3)) * prated = r1 := by
        simpa using e1
      obtain rfl : clamp01 ((v2 ^ 3) / (v_rated ^ 3)) * prated = r2 := by
        simpa using e2
      have hd : (0 : ℚ) < v_rated ^ 3 := pow_pos hvr 3
      apply mul_le_mul_of_nonneg_right _ hp.le
      apply clamp01_mono
      exact (div_le_div_iff_of_pos_right hd).mpr (cube_le_cube v1 v2 h12)
    · rw [interp_weight_cubic_err v1 v_in v_rated hvr] at e1
      cases e1

theorem C4_witness : (15/4 : ℚ) ≤ 15/2 :=
  C4_ramp_monotone 5 7 15 3 11 25 "linear" (15/4) (15/2)
    (by constructor <;> norm_num) (by norm_num) (by norm_num) (by norm_num)
    (by norm_num [compute_power, validate_prated, validate_thresholds,
      validate_interpolation, interp_weight, clamp01])
    (by norm_num [compute_power, validate_prated, validate_thresholds,
      validate_interpolation, interp_weight, clamp01])

/-- C5 counterexample: the configuration prated=1, v_in=-3, v_rated=-2,
v_out=1 with cubic interpolation passes all three validation checks, yet
the wind speed v = -5/2 makes compute_power raise: whether a call raises
is NOT independent of v. -/
theorem C5_counterexample :
    validConfig 1 (-3) (-2) 1 "cubic" ∧
    isError (compute_power (-5/2) 1 (-3) (-2) 1 "cubic") = true := by
  norm_num [compute_power, validate_prated, validate_thresholds, validate_interpolation,
    interp_weight, clamp01, isError, validConfig, cubic_ne_linear]

/-- C5 amended: compute_power raises if and only if one of the three
validation causes holds (prated ≤ 0, threshold order violated,
unrecognized mode), or the mode is cubic with v_rated ≤ 0 and the wind
speed lies in the ramp region v_in ≤ v < v_rated. -/
theorem C5_amended_error_characterization (v prated v_in v_rated v_out : ℚ)
    (interpolation : String) :
    isError (compute_power v prated v_in v_rated v_out interpolation) = true ↔
      (¬ validConfig prated v_in v_rated v_out interpolation ∨
        (interpolation = "cubic" ∧ v_rated ≤ 0 ∧ v_in ≤ v ∧ v < v_rated)) := by
  constructor
  · intro hL
    by_cases hvalid : validConfig prated v_in v_rated v_out interpolation
    · right
      by_contra hnc
      obtain ⟨r, hr⟩ := compute_power_ok_form v prated v_in v_rated v_out
        interpolation hvalid (fun hm hvr hiv => hnc ⟨hm, hvr, hiv.1, hiv.2⟩)
      rw [hr] at hL
      cases hL
    · exact Or.inl hvalid
  · intro hR
    rcases hR with hnv | ⟨hm, hvr, hge, hlt⟩
    · exact isError_of_invalid v prated v_in v_rated v_out interpolation hnv
    · subst hm
      by_cases hvalid : validConfig prated v_in v_rated v_out "cubic"
      · obtain ⟨hp, h1, h2, _⟩ := hvalid
        rw [compute_power_cubic_ramp_err v prated v_in v_rated v_out
          hp h1 h2 hvr hge hlt]
        rfl
      · exact isError_of_invalid v prated v_in v_rated v_out "cubic" hvalid

/-- C6 counterexample: with cubic interpolation, prated=1, v_in=-3,
v_rated=-2, v_out=1 (ordering holds, v_rated ≤ 0), compute_power at v=0
returns prated without raising: the v_rated ≤ 0 invalidity is NOT detected
eagerly for every wind speed. -/
theorem C6_counterexample :
    (0 : ℚ) < 1 ∧ (-3 : ℚ) < -2 ∧ (-2 : ℚ) < 1 ∧ (-2 : ℚ) ≤ 0 ∧
    compute_power 0 1 (-3) (-2) 1 "cubic" = Except.ok 1 := by
  norm_num [compute_power, validate_prated, validate_thresholds, validate_interpolation]

/-- C6 amended: with cubic interpolation, prated > 0, ordered thresholds
and v_rated ≤ 0, compute_power raises exactly for the wind speeds in the
ramp region v_in ≤ v < v_rated; the invalidity is detected lazily, only
when region dispatch reaches the ramp computation. -/
theorem C6_amended_cubic_lazy_error (v prated v_in v_rated v_out : ℚ)
    (hp : 0 < prated) (h1 : v_in < v_rated) (h2 : v_rated < v_out)
    (hvr : v_rated ≤ 0) :
    isError (compute_power v prated v_in v_rated v_out "cubic") = true ↔
      (v_in ≤ v ∧ v < v_rated) := by
  constructor
  · intro hL
    by_contra hnc
    obtain ⟨r, hr⟩ := compute_power_ok_form v prated v_in v_rated v_out "cubic"
      ⟨hp, h1, h2, Or.inr rfl⟩ (fun _ _ hiv => hnc hiv)
    rw [hr] at hL
    cases hL
  · rintro ⟨hge, hlt⟩
    rw [compute_power_cubic_ramp_err v prated v_in v_rated v_out
      hp h1 h2 hvr hge hlt]
    rfl

theorem C6_amended_witness :
    isError (compute_power (-5/2) 2 (-3) (-2) 1 "cubic") = true :=
  (C6_amended_cubic_lazy_error (-5/2) 2 (-3) (-2) 1
    (by norm_num) (by norm_num) (by norm_num) (by norm_num)).mpr
    (by constructor <;> norm_num)

/-- C7: with the default configuration prated=15, v_in=3, v_rated=11,
v_out=25 and linear interpolation, compute_power returns exactly 0 at v=0,
0 at v=3, 15/2 at the midpoint v=7, 15 at v=11, and 0 at v=25. -/
theorem C7_default_config_values :
    compute_power 0 15 3 11 25 "linear" = Except.ok 0 ∧
    compute_power 3 15 3 11 25 "linear" = Except.ok 0 ∧
    compute_power 7 15 3 11 25 "linear" = Except.ok (15/2) ∧
    compute_power 11 15 3 11 25 "linear" = Except.ok 15 ∧
    compute_power 25 15 3 11 25 "linear" = Except.ok 0 := by
  norm_num [compute_power, validate_prated, validate_thresholds, validate_interpolation,
    interp_weight, clamp01]

/-- C8: for every configuration passing validation, whenever
compute_power_series returns a list, it has the same length as the input
and its element at each index equals compute_power applied to the wind
speed at that index with the same configuration (order preserved). -/
theorem C8_series_length_and_pointwise (speeds : List ℚ)
    (prated v_in v_rated v_out : ℚ) (interpolation : String) (l : List ℚ)
    (hvalid : validConfig prated v_in v_rated v_out interpolation)
    (h : compute_power_series speeds prated v_in v_rated v_out interpolation =
      Except.ok l) :
    l.length = speeds.length ∧
      ∀ i (hi : i < l.length) (hs : i < speeds.length),
        compute_power speeds[i] prated v_in v_rated v_out interpolation =
          Except.ok l[i] := by
  obtain ⟨hp, h1, h2, hmode⟩ := hvalid
  simp only [compute_power_series, validate_prated, validate_thresholds,
    validate_interpolation, not_le.mpr hp, if_false, h1, h2, hmode, and_self,
    if_true, ite_true, ite_false, iff_true, eq_self_iff_true, or_true, true_or] at h
  exact mapExcept_ok_spec _ speeds l h

theorem C8_witness :
    ([0, 15/2, 15] : List ℚ).length = ([0, 7, 11] : List ℚ).length :=
  (C8_series_length_and_pointwise [0, 7, 11] 15 3 11 25 "linear" [0, 15/2, 15]
    (by constructor <;> norm_num)
    (by norm_num [compute_power_series, compute_power, validate_prated,
      validate_thresholds, validate_interpolation, interp_weight, clamp01,
      mapExcept])).1

/-- C9: under the threshold invariant v_in < v_rated, the defensive error
branch of the linear interpolation (denominator v_rated - v_in ≤ 0) is
unreachable: interp_weight always succeeds with the clamped linear
weight. -/
theorem C9_linear_defensive_branch_unreachable (v v_in v_rated : ℚ)
    (h : v_in < v_rated) :
    interp_weight v v_in v_rated "linear" =
      Except.ok (clamp01 ((v - v_in) / (v_rated - v_in))) :=
  interp_weight_linear_eq v v_in v_rated h

theorem C9_witness : interp_weight 5 3 11 "linear" = Except.ok (1/4) := by
  rw [C9_linear_defensive_branch_unreachable 5 3 11 (by norm_num)]
  norm_num [clamp01]

/-- C10: with cubic interpolation, a configuration passing all checks
(prated > 0, ordered thresholds, v_rated > 0) and a ramp-region wind speed
v ≤ 0 (possible only with negative v_in), compute_power returns exactly 0:
the negative cubic weight is clamped up to 0 before multiplying. -/
theorem C10_cubic_ramp_nonpos_speed_zero (v prated v_in v_rated v_out : ℚ)
    (hp : 0 < prated) (h1 : v_in < v_rated) (h2 : v_rated < v_out)
    (hvr : 0 < v_rated) (hge : v_in ≤ v) (hlt : v < v_rated) (hv0 : v ≤ 0) :
    compute_power v prated v_in v_rated v_out "cubic" = Except.ok 0 := by
  rw [compute_power_eq_of_valid v prated v_in v_rated v_out "cubic"
    ⟨hp, h1, h2, Or.inr rfl⟩]
  have hout : ¬ (v < v_in ∨ v ≥ v_out) := by
    push_neg
    exact ⟨hge, by linarith⟩
  rw [if_neg hout, if_neg (not_le.mpr hlt),
    interp_weight_cubic_pos v v_in v_rated hvr]
  have hcube : v ^ 3 ≤ 0 := by nlinarith [sq_nonneg v]
  have hdiv : v ^ 3 / v_rated ^ 3 ≤ 0 :=
    div_nonpos_iff.mpr (Or.inr ⟨hcube, (pow_pos hvr 3).le⟩)
  rw [clamp01_of_nonpos _ hdiv]
  norm_num

theorem C10_witness : compute_power (-1/2) 1 (-1) 2 3 "cubic" = Except.ok 0 :=
  C10_cubic_ramp_nonpos_speed_zero (-1/2) 1 (-1) 2 3 (by norm_num) (by norm_num)
    (by norm_num) (by norm_num) (by norm_num) (by norm_num) (by norm_num)

end PowerCurve
